import Mathlib

/-
  Verification development for the niti-setu repository.

  The embedding below models, from the source:
  - the farmer profile record and the per-field merge used by
    handleProfileExtracted and handleManualChange (App component);
  - the inference-service adapters extractProfileFromText and
    checkEligibility (geminiService), with the remote service treated as an
    oracle parameter: it either rejects the call or yields a response whose
    JSON-parse outcome is given explicitly;
  - the analysis orchestrator runAnalysis (App component), with the
    Promise.all join modelled as first-error collection over the list of
    per-scheme evaluator outcomes, and the wall-clock duration passed in as
    a parameter;
  - the VoiceControl speech-capture component together with the platform
    recognition-session lifecycle (start, stop, abort, result, error, end
    events of the Web Speech API).

  A value of type Option in a profile field models a field that is absent
  or undefined in the JavaScript object; payloads produced by JSON.parse
  never contain a key bound to undefined, so absent and undefined coincide
  for every value that reaches the merge.
-/

/-- Farmer profile during collection: every field optional, mirroring the
TypeScript type with all fields possibly undefined. -/
structure FarmerProfile where
  name : Option String := none
  state : Option String := none
  district : Option String := none
  landHolding : Option Int := none
  cropType : Option String := none
  category : Option String := none
deriving DecidableEq, Repr

/-- Static catalog entry, as used by the dashboard table and runAnalysis. -/
structure Scheme where
  id : String
  name : String
  category : String
  benefit : String
deriving DecidableEq, Repr

/-- Dashboard metrics record from the App component state. -/
structure DashboardMetrics where
  schemesAnalyzed : Nat
  checksPerformed : Nat
  avgResponseTime : String
  eligibleCount : Nat
deriving DecidableEq, Repr

/-- Result record returned by checkEligibility: the parsed service fields
plus schemeId and schemeName set by the adapter. -/
structure EligibilityResult where
  schemeId : String
  schemeName : String
  isEligible : Bool
  benefit : String
  proofCitation : String
  proofSnippet : String
  nextSteps : List String
  requiredDocuments : List String
deriving DecidableEq, Repr

/-- The object obtained by JSON.parse from the eligibility response text.
The response schema requests six fields; the service could additionally
include fields named schemeId or schemeName, which the adapter must
override, so they are modelled as optional extras. -/
structure ParsedEligResponse where
  isEligible : Bool
  benefit : String
  proofCitation : String
  proofSnippet : String
  nextSteps : List String
  requiredDocuments : List String
  schemeId : Option String := none
  schemeName : Option String := none
deriving DecidableEq, Repr

/-- Active tab of the App component. -/
inductive Tab
  | input
  | results
  | dashboard
deriving DecidableEq, Repr

/-- The App component state that the orchestrator reads and writes. -/
structure AppState where
  profile : FarmerProfile
  results : List EligibilityResult
  metrics : DashboardMetrics
  isLoading : Bool
  activeTab : Tab
deriving DecidableEq, Repr

/-- One field of the object-spread merge: a key present in the update wins,
a key absent from the update leaves the previous value. -/
def overlayField {α : Type} (prev upd : Option α) : Option α :=
  match upd with
  | some v => some v
  | none => prev

/-- The object-spread merge performed by both handleProfileExtracted and
handleManualChange: spread of the update over the previous profile. -/
def mergeProfile (prev extracted : FarmerProfile) : FarmerProfile :=
  { name := overlayField prev.name extracted.name
    state := overlayField prev.state extracted.state
    district := overlayField prev.district extracted.district
    landHolding := overlayField prev.landHolding extracted.landHolding
    cropType := overlayField prev.cropType extracted.cropType
    category := overlayField prev.category extracted.category }

/-- handleProfileExtracted merges a voice-extracted partial profile into
the App state. -/
def handleProfileExtracted (s : AppState) (extracted : FarmerProfile) : AppState :=
  { s with profile := mergeProfile s.profile extracted }

/-- handleManualChange merges a form edit into the App state; it is the
same spread merge as handleProfileExtracted. -/
def handleManualChange (s : AppState) (updates : FarmerProfile) : AppState :=
  { s with profile := mergeProfile s.profile updates }

/-- Initial profile of the App component. -/
def initialProfile : FarmerProfile :=
  { category := some "General", landHolding := some 0 }

/-- JSON values, as produced by JSON.parse on a response text. -/
inductive Json
  | str (s : String)
  | num (n : Int)
  | jbool (b : Bool)
  | arr (elems : List Json)
  | obj (fields : List (String × Json))
  | jnull

/-- The six keys of the profile extraction response schema. -/
def profileKeys : List String :=
  ["name", "state", "district", "landHolding", "cropType", "category"]

/-- Whether a JSON value is a string. -/
def jsonIsStr : Json → Bool
  | .str _ => true
  | _ => false

/-- Whether a JSON value is a number. -/
def jsonIsNum : Json → Bool
  | .num _ => true
  | _ => false

/-- One key of the extraction response schema with its declared type:
landHolding is a number, the other five keys are strings. -/
def keyWellTyped (k : String) (v : Json) : Bool :=
  if k == "landHolding" then jsonIsNum v
  else if k == "name" || k == "state" || k == "district" || k == "cropType" || k == "category" then jsonIsStr v
  else false

/-- A JSON value conforms to the extraction response schema when it is an
object all of whose fields are schema keys with the declared types. -/
def conformsToProfileSchema : Json → Bool
  | .obj fields => fields.all (fun kv => keyWellTyped kv.1 kv.2)
  | _ => false

/-- The keys of a JSON object, empty for every other value. -/
def keysOf : Json → List String
  | .obj fields => fields.map Prod.fst
  | _ => []

/-- Outcome of a profile extraction call to the inference service: the call
rejects with a message, or it yields a response whose text parses to the
given JSON value, none when JSON.parse rejects the text. -/
inductive ExtractOutcome
  | fail (msg : String)
  | text (parse : Option Json)

/-- The instruction sent by extractProfileFromText. -/
def extractPrompt (text : String) : String :=
  "Extract a structured farmer profile from this text: " ++ text ++
    " Return as JSON with: name, state, district, landHolding (number in acres), cropType, category (General OBC SC ST EWS)."

/-- extractProfileFromText: awaits the service call outside any handler, so
a rejection of the call propagates; only JSON.parse is guarded, returning
the empty object when the response text does not parse. -/
def extractProfileFromText (svc : String → ExtractOutcome) (text : String) :
    Except String Json :=
  match svc (extractPrompt text) with
  | .fail msg => .error msg
  | .text none => .ok (Json.obj [])
  | .text (some j) => .ok j

/-- Outcome of an eligibility call to the inference service: the call
rejects with a message, or it yields a response whose text parses to the
given record, none when JSON.parse rejects the text. -/
inductive SvcOutcome
  | fail (msg : String)
  | respond (parsed : Option ParsedEligResponse)
deriving DecidableEq, Repr

/-- Errors raised by checkEligibility: the rejected remote call, or the
JSON.parse failure on the response text. -/
inductive EvalError
  | service (msg : String)
  | parseFailed
deriving DecidableEq, Repr

/-- A service outcome that makes checkEligibility raise: the call rejected
or the response text was unparseable. -/
def svcFailed : SvcOutcome → Bool
  | .fail _ => true
  | .respond none => true
  | .respond (some _) => false

/-- Template interpolation of a possibly undefined string field. -/
def showOptStr : Option String → String
  | none => "undefined"
  | some s => s

/-- Template interpolation of a possibly undefined numeric field. -/
def showOptInt : Option Int → String
  | none => "undefined"
  | some n => toString n

/-- The grounding prompt built by checkEligibility from the profile fields
and the guideline text. -/
def eligPrompt (p : FarmerProfile) (guidelines : String) : String :=
  "Analyze if the following farmer profile is eligible for the scheme based on the guidelines provided. FARMER PROFILE: Name: "
    ++ showOptStr p.name ++ " State: " ++ showOptStr p.state
    ++ " Land Holding: " ++ showOptInt p.landHolding ++ " acres Category: "
    ++ showOptStr p.category ++ " Crop: " ++ showOptStr p.cropType
    ++ " SCHEME GUIDELINES: " ++ guidelines

/-- The JavaScript toUpperCase for the ASCII ids of the catalog: uppercase
every character. -/
def jsToUpperCase (s : String) : String := String.mk (s.data.map Char.toUpper)

/-- The guideline lookup of checkEligibility: the map value when the id is
known, the placeholder text otherwise. -/
def guidelineFor (guidelines : String → Option String) (schemeId : String) : String :=
  (guidelines schemeId).getD "No guidelines found."

/-- The part of checkEligibility after the guideline lookup: send the
prompt, parse, and build the result with schemeId and schemeName set by
the adapter, overriding any same-named response fields. -/
def evalWithGuidelines (svc : String → SvcOutcome) (p : FarmerProfile)
    (schemeId : String) (guidelines : String) : Except EvalError EligibilityResult :=
  match svc (eligPrompt p guidelines) with
  | .fail msg => .error (.service msg)
  | .respond none => .error .parseFailed
  | .respond (some d) =>
      .ok { schemeId := schemeId
            schemeName := jsToUpperCase schemeId
            isEligible := d.isEligible
            benefit := d.benefit
            proofCitation := d.proofCitation
            proofSnippet := d.proofSnippet
            nextSteps := d.nextSteps
            requiredDocuments := d.requiredDocuments }

/-- checkEligibility: look up the guideline text, never raising on an
unknown id, then evaluate with the remote service. -/
def checkEligibility (guidelines : String → Option String) (svc : String → SvcOutcome)
    (p : FarmerProfile) (schemeId : String) : Except EvalError EligibilityResult :=
  evalWithGuidelines svc p schemeId (guidelineFor guidelines schemeId)

/-- Whether an Except value is a success. -/
def isOkResult {E A : Type} : Except E A → Bool
  | .ok _ => true
  | .error _ => false

/-- Promise.all over already-dispatched outcomes: all successes joined in
list order, or the first listed failure. -/
def collectAll {E A : Type} : List (Except E A) → Except E (List A)
  | [] => .ok []
  | x :: xs =>
      match x with
      | .error e => .error e
      | .ok a =>
          match collectAll xs with
          | .error e => .error e
          | .ok rest => .ok (a :: rest)

/-- Elapsed milliseconds rendered as seconds with one decimal place,
modelling division by 1000 followed by toFixed applied with one digit on a
nonnegative value. -/
def formatSeconds (ms : Nat) : String :=
  toString ((ms + 50) / 100 / 10) ++ "." ++ toString ((ms + 50) / 100 % 10)

/-- The falsiness test applied to a string profile field: undefined or the
empty string. -/
def isBlank : Option String → Bool
  | none => true
  | some t => t == ""

/-- How a runAnalysis invocation ended: the validation guard fired, the
joined evaluator batch failed, or the run succeeded. -/
inductive RunOutcome
  | validationError
  | serviceFailure
  | success
deriving DecidableEq, Repr

/-- Observation of one runAnalysis invocation: the new App state, how the
run ended, and how many evaluator calls were dispatched. -/
structure RunReport where
  state : AppState
  outcome : RunOutcome
  callsIssued : Nat
deriving DecidableEq, Repr

/-- runAnalysis: guard on name and state, dispatch one checkEligibility
call per catalog scheme, join them all, and on success replace the result
list, update the metrics and switch to the results tab; on a failed join
only the loading flag changes; the measured duration is a parameter. -/
def runAnalysis (guidelines : String → Option String) (svc : String → SvcOutcome)
    (schemes : List Scheme) (durationMs : Nat) (s : AppState) : RunReport :=
  if isBlank s.profile.name || isBlank s.profile.state then
    { state := s, outcome := .validationError, callsIssued := 0 }
  else
    match collectAll (schemes.map (fun sch => checkEligibility guidelines svc s.profile sch.id)) with
    | .error _ =>
        { state := { s with isLoading := false }
          outcome := .serviceFailure
          callsIssued := schemes.length }
    | .ok res =>
        { state := { s with
            results := res
            metrics := { s.metrics with
              checksPerformed := s.metrics.checksPerformed + 1
              avgResponseTime := formatSeconds durationMs ++ "s"
              eligibleCount := (res.filter (fun r => r.isEligible)).length }
            activeTab := .results
            isLoading := false }
          outcome := .success
          callsIssued := schemes.length }

/-- Platform recognition-session lifecycle: inactive, actively listening,
or stopping after a stop request while a final result may still arrive. -/
inductive SessionSt
  | inactive
  | active
  | stopping
deriving DecidableEq, Repr

/-- State of the VoiceControl component together with the platform
session: the React flags, the session phase, how many sessions were ever
started, and the transcripts handed to profile extraction. -/
structure VCState where
  hasRecognition : Bool
  isListening : Bool
  transcript : String
  errMsg : Option String
  isProcessing : Bool
  session : SessionSt
  startedCount : Nat
  emitted : List String
deriving DecidableEq, Repr

/-- Outcome of the getUserMedia microphone request. -/
inductive MicOutcome
  | granted
  | notAllowed
  | notFound
  | otherFailure
deriving DecidableEq, Repr

/-- Error message when the browser lacks speech recognition. -/
def msgNotSupported : String :=
  "Speech recognition is not supported in this browser. Please try Chrome or Edge."

/-- Error message for a denied microphone permission. -/
def msgPermissionDenied : String :=
  "Microphone permission denied. Please allow microphone access in your browser settings."

/-- Error message for a missing microphone. -/
def msgNoMic : String :=
  "No microphone found. Please connect a microphone and try again."

/-- Generic error message of the catch handler, also produced when the
platform start call raises because a session is already running. -/
def msgCouldNotStart : String :=
  "Could not start microphone. Ensure no other app is using it."

/-- startListening: clear error and transcript, bail out when recognition
is unsupported, otherwise request the microphone; on grant set the
listening flag and call the platform start, which raises into the same
catch handler when a session is already running, so no second session is
ever started. -/
def startListening (mic : MicOutcome) (s : VCState) : VCState :=
  if s.hasRecognition = false then
    { s with errMsg := some msgNotSupported, transcript := "" }
  else
    match mic with
    | .granted =>
        match s.session with
        | .inactive =>
            { s with errMsg := none, transcript := "", isListening := true,
                     session := .active, startedCount := s.startedCount + 1 }
        | st =>
            { s with errMsg := some msgCouldNotStart, transcript := "",
                     isListening := true, session := st }
    | .notAllowed => { s with errMsg := some msgPermissionDenied, transcript := "" }
    | .notFound => { s with errMsg := some msgNoMic, transcript := "" }
    | .otherFailure => { s with errMsg := some msgCouldNotStart, transcript := "" }

/-- Effect of the platform stop call on the session: an active session
begins stopping and may still deliver a final result; otherwise nothing
happens. -/
def stopSession : SessionSt → SessionSt
  | .active => .stopping
  | st => st

/-- stopListening: when a recognition object exists, call the platform
stop and clear the listening flag; otherwise do nothing. -/
def stopListening (s : VCState) : VCState :=
  if s.hasRecognition then
    { s with session := stopSession s.session, isListening := false }
  else s

/-- The onerror handler message classification. -/
def classifyRecogError (code : String) : String :=
  if code == "audio-capture" then
    "Microphone capture failed. Ensure your microphone is plugged in and not in use by another app."
  else if code == "not-allowed" then
    "Microphone access blocked. Please enable it in browser settings."
  else if code == "no-speech" then
    "No speech detected. Please try again."
  else if code == "network" then
    "Network error occurred during speech recognition."
  else
    "Speech recognition error: " ++ code

/-- The onresult handler: record the transcript, clear the listening flag,
mark processing and hand the transcript to profile extraction. -/
def onResult (t : String) (s : VCState) : VCState :=
  { s with transcript := t, isListening := false, isProcessing := true,
           emitted := s.emitted ++ [t] }

/-- The onerror handler: clear the listening flag and surface the
classified message. -/
def onError (code : String) (s : VCState) : VCState :=
  { s with isListening := false, errMsg := some (classifyRecogError code) }

/-- The onend handler: clear the listening flag; the platform session is
over. -/
def onEnd (s : VCState) : VCState :=
  { s with isListening := false, session := .inactive }

/-- Platform events delivered to the registered handlers. -/
inductive VCEvent
  | result (t : String)
  | errorEvent (code : String)
  | ended
deriving DecidableEq, Repr

/-- Dispatch of one platform event to its handler. -/
def vcStep (s : VCState) (e : VCEvent) : VCState :=
  match e with
  | .result t => onResult t s
  | .errorEvent c => onError c s
  | .ended => onEnd s

/-- The platform only fires recognition events while a session is live:
active, or stopping with a final result still pending. -/
def eventLegal (s : VCState) (e : VCEvent) : Bool :=
  match e with
  | _ => s.session != SessionSt.inactive

/-- Whether a sequence of platform events is deliverable from a state. -/
def legalTrace : VCState → List VCEvent → Bool
  | _, [] => true
  | s, e :: es => eventLegal s e && legalTrace (vcStep s e) es

/-- The state after delivering a sequence of platform events. -/
def runTrace : VCState → List VCEvent → VCState
  | s, [] => s
  | s, e :: es => runTrace (vcStep s e) es

/-- The claim that stopping from Listening never lets a transcript of that
session be emitted, over every deliverable continuation of the session. -/
def c8Stated : Prop :=
  ∀ (s : VCState) (evs : List VCEvent),
    s.isListening = true → s.session = SessionSt.active → s.hasRecognition = true →
    legalTrace (stopListening s) evs = true →
    (runTrace (stopListening s) evs).emitted = s.emitted

/-- The claim that extractProfileFromText never throws, for every service
behaviour and every transcript. -/
def c6Stated : Prop :=
  ∀ (svc : String → ExtractOutcome) (text : String),
    ∃ j, extractProfileFromText svc text = Except.ok j

/-- Concrete profile used by the witnesses. -/
def sampleProfile : FarmerProfile :=
  { name := some "Rajesh", state := some "Punjab", landHolding := some 4,
    category := some "General" }

/-- Concrete catalog entry used by the witnesses. -/
def sampleScheme : Scheme :=
  { id := "pm-kisan", name := "PM Kisan Samman Nidhi", category := "Income Support",
    benefit := "Rs 6000 per year" }

/-- Concrete parsed eligibility response used by the witnesses; it carries
its own schemeId and schemeName fields, which the adapter must override. -/
def sampleResponse : ParsedEligResponse :=
  { isEligible := true, benefit := "Rs 6000 per year", proofCitation := "Page 2",
    proofSnippet := "All landholding farmer families", nextSteps := ["Apply online"],
    requiredDocuments := ["Aadhaar"], schemeId := some "other-id",
    schemeName := some "Pradhan Mantri Kisan Samman Nidhi" }

/-- A service that always answers with the sample response. -/
def svcAlwaysOk : String → SvcOutcome := fun _ => .respond (some sampleResponse)

/-- A service whose calls always reject. -/
def svcAlwaysFail : String → SvcOutcome := fun _ => .fail "network down"

/-- Guideline map used by the witnesses. -/
def sampleGuidelines : String → Option String :=
  fun id => if id == "pm-kisan" then some "All landholding farmer families are eligible." else none

/-- Concrete App state used by the witnesses. -/
def sampleState : AppState :=
  { profile := sampleProfile, results := [],
    metrics := { schemesAnalyzed := 1, checksPerformed := 0,
                 avgResponseTime := "0.0s", eligibleCount := 0 },
    isLoading := false, activeTab := .input }

/-- Concrete listening voice state used by the witnesses. -/
def listeningState : VCState :=
  { hasRecognition := true, isListening := true, transcript := "", errMsg := none,
    isProcessing := false, session := .active, startedCount := 1, emitted := [] }

/-- Concrete idle voice state used by the witnesses. -/
def idleState : VCState :=
  { hasRecognition := true, isListening := false, transcript := "", errMsg := none,
    isProcessing := false, session := .inactive, startedCount := 0, emitted := [] }

/-- App state whose profile is missing the name field, used to exercise
the validation guard. -/
def invalidState : AppState :=
  { sampleState with profile := { sampleState.profile with name := none } }

/-- The fully undefined profile. -/
def emptyProfile : FarmerProfile := {}

/-- A schema-conforming extraction response object. -/
def sampleJson : Json :=
  Json.obj [("name", Json.str "Rajesh"), ("state", Json.str "Punjab"),
            ("landHolding", Json.num 4)]

/-- An extraction service whose calls always reject. -/
def svcExtractFail : String → ExtractOutcome := fun _ => .fail "network down"

/-- An extraction service that always answers with the sample object. -/
def svcExtractOk : String → ExtractOutcome := fun _ => .text (some sampleJson)

/-- An extraction service whose response text never parses. -/
def svcExtractGarbled : String → ExtractOutcome := fun _ => .text none

/-- A key absent from the update leaves the previous field value. -/
theorem overlayField_of_none {α : Type} {a b : Option α} (h : b = none) :
    overlayField a b = a := by
  subst h
  rfl

/-- A key present in the update overrides the previous field value. -/
theorem overlayField_of_ne {α : Type} {a b : Option α} (h : b ≠ none) :
    overlayField a b = b := by
  cases b with
  | none => exact absurd rfl h
  | some v => rfl

/-- Overlaying a field with itself changes nothing. -/
theorem overlayField_self {α : Type} (a : Option α) : overlayField a a = a := by
  cases a <;> rfl

/-- When every outcome in the batch is a success, the join succeeds. -/
theorem collectAll_ok_of_all_ok {E A : Type} (l : List (Except E A))
    (h : ∀ x ∈ l, isOkResult x = true) : ∃ r, collectAll l = Except.ok r := by
  induction l with
  | nil => exact ⟨[], rfl⟩
  | cons x xs ih =>
      cases x with
      | error e =>
          have hx := h (Except.error e) (List.mem_cons_self _ _)
          simp [isOkResult] at hx
      | ok a =>
          obtain ⟨r, hr⟩ := ih (fun y hy => h y (List.mem_cons_of_mem _ hy))
          exact ⟨a :: r, by simp [collectAll, hr]⟩

/-- When some outcome in the batch is a failure, the join fails. -/
theorem collectAll_error_of_mem {E A : Type} (l : List (Except E A))
    (h : ∃ x ∈ l, isOkResult x = false) : ∃ e, collectAll l = Except.error e := by
  induction l with
  | nil =>
      obtain ⟨x, hx, _⟩ := h
      simp at hx
  | cons y ys ih =>
      cases y with
      | error e => exact ⟨e, rfl⟩
      | ok a =>
          obtain ⟨x, hx, hbad⟩ := h
          rcases List.mem_cons.mp hx with h1 | h2
          · subst h1
            simp [isOkResult] at hbad
          · obtain ⟨e, he⟩ := ih ⟨x, h2, hbad⟩
            exact ⟨e, by simp [collectAll, he]⟩

/-- A successful join returns as many values as outcomes, each success at
its own index. -/
theorem collectAll_ok_spec {E A : Type} :
    ∀ (l : List (Except E A)) (r : List A), collectAll l = Except.ok r →
      r.length = l.length ∧
      ∀ (i : Nat) (h1 : i < l.length) (h2 : i < r.length),
        l.get ⟨i, h1⟩ = Except.ok (r.get ⟨i, h2⟩) := by
  intro l
  induction l with
  | nil =>
      intro r h
      simp [collectAll] at h
      subst h
      refine ⟨rfl, ?_⟩
      intro i h1 h2
      simp at h1
  | cons x xs ih =>
      intro r h
      cases x with
      | error e => simp [collectAll] at h
      | ok a =>
          revert h
          simp only [collectAll]
          cases hxs : collectAll xs with
          | error e =>
              intro h
              simp at h
          | ok rest =>
              intro h
              simp at h
              subst h
              obtain ⟨hlen, hget⟩ := ih rest hxs
              refine ⟨by simp [hlen], ?_⟩
              intro i h1 h2
              cases i with
              | zero => rfl
              | succ n =>
                  exact hget n (by simpa using h1) (by simpa using h2)

/-- C5: the profile merge used by both voice-extraction results and manual
form edits is right-biased and idempotent: each field of the merged
profile is the update value when the update defines it and the previous
value when the update leaves it undefined, and merging a profile with
itself yields that profile. -/
theorem mergeProfile_right_biased_idem (p1 p2 : FarmerProfile) :
    ((p2.name = none → (mergeProfile p1 p2).name = p1.name) ∧
      (p2.name ≠ none → (mergeProfile p1 p2).name = p2.name)) ∧
    ((p2.state = none → (mergeProfile p1 p2).state = p1.state) ∧
      (p2.state ≠ none → (mergeProfile p1 p2).state = p2.state)) ∧
    ((p2.district = none → (mergeProfile p1 p2).district = p1.district) ∧
      (p2.district ≠ none → (mergeProfile p1 p2).district = p2.district)) ∧
    ((p2.landHolding = none → (mergeProfile p1 p2).landHolding = p1.landHolding) ∧
      (p2.landHolding ≠ none → (mergeProfile p1 p2).landHolding = p2.landHolding)) ∧
    ((p2.cropType = none → (mergeProfile p1 p2).cropType = p1.cropType) ∧
      (p2.cropType ≠ none → (mergeProfile p1 p2).cropType = p2.cropType)) ∧
    ((p2.category = none → (mergeProfile p1 p2).category = p1.category) ∧
      (p2.category ≠ none → (mergeProfile p1 p2).category = p2.category)) ∧
    mergeProfile p1 p1 = p1 :=
  ⟨⟨fun h => overlayField_of_none h, fun h => overlayField_of_ne h⟩,
   ⟨fun h => overlayField_of_none h, fun h => overlayField_of_ne h⟩,
   ⟨fun h => overlayField_of_none h, fun h => overlayField_of_ne h⟩,
   ⟨fun h => overlayField_of_none h, fun h => overlayField_of_ne h⟩,
   ⟨fun h => overlayField_of_none h, fun h => overlayField_of_ne h⟩,
   ⟨fun h => overlayField_of_none h, fun h => overlayField_of_ne h⟩,
   by simp [mergeProfile, overlayField_self]⟩

/-- Witness for C5 at concrete profiles: a fully undefined update keeps
the previous name, and self-merge is the identity. -/
theorem mergeProfile_right_biased_idem_witness :
    (mergeProfile sampleProfile emptyProfile).name = sampleProfile.name ∧
    mergeProfile sampleProfile sampleProfile = sampleProfile := by
  have h1 := mergeProfile_right_biased_idem sampleProfile emptyProfile
  have h2 := mergeProfile_right_biased_idem sampleProfile sampleProfile
  exact ⟨h1.1.1 rfl, h2.2.2.2.2.2.2⟩

/-- C4: when the profile name or state is undefined or empty, runAnalysis
fails with the validation outcome, dispatches zero evaluator calls, and
leaves the whole App state unchanged. -/
theorem runAnalysis_validation_guard (guidelines : String → Option String)
    (svc : String → SvcOutcome) (schemes : List Scheme) (durationMs : Nat)
    (s : AppState)
    (h : isBlank s.profile.name = true ∨ isBlank s.profile.state = true) :
    (runAnalysis guidelines svc schemes durationMs s).outcome = RunOutcome.validationError ∧
    (runAnalysis guidelines svc schemes durationMs s).state = s ∧
    (runAnalysis guidelines svc schemes durationMs s).callsIssued = 0 := by
  have hb : (isBlank s.profile.name || isBlank s.profile.state) = true := by
    rcases h with h | h <;> simp [h]
  simp [runAnalysis, hb]

/-- Witness for C4: a profile with an undefined name is rejected without
touching the state. -/
theorem runAnalysis_validation_guard_witness :
    (runAnalysis sampleGuidelines svcAlwaysOk [sampleScheme] 1234 invalidState).outcome = RunOutcome.validationError ∧
    (runAnalysis sampleGuidelines svcAlwaysOk [sampleScheme] 1234 invalidState).state = invalidState ∧
    (runAnalysis sampleGuidelines svcAlwaysOk [sampleScheme] 1234 invalidState).callsIssued = 0 :=
  runAnalysis_validation_guard sampleGuidelines svcAlwaysOk [sampleScheme] 1234 invalidState
    (Or.inl (by decide))

/-- C1: when some evaluator call of the batch fails, the whole run fails
and neither the stored result list nor the metrics record is mutated. -/
theorem runAnalysis_all_or_nothing (guidelines : String → Option String)
    (svc : String → SvcOutcome) (schemes : List Scheme) (durationMs : Nat)
    (s : AppState)
    (hname : isBlank s.profile.name = false)
    (hstate : isBlank s.profile.state = false)
    (hfail : ∃ sch ∈ schemes,
      isOkResult (checkEligibility guidelines svc s.profile sch.id) = false) :
    (runAnalysis guidelines svc schemes durationMs s).outcome = RunOutcome.serviceFailure ∧
    (runAnalysis guidelines svc schemes durationMs s).state.results = s.results ∧
    (runAnalysis guidelines svc schemes durationMs s).state.metrics = s.metrics := by
  obtain ⟨sch, hmem, hbad⟩ := hfail
  have hex : ∃ x ∈ schemes.map (fun sch => checkEligibility guidelines svc s.profile sch.id),
      isOkResult x = false :=
    ⟨checkEligibility guidelines svc s.profile sch.id,
      List.mem_map.mpr ⟨sch, hmem, rfl⟩, hbad⟩
  obtain ⟨e, he⟩ := collectAll_error_of_mem _ hex
  simp [runAnalysis, hname, hstate, he]

/-- Witness for C1: with a service whose calls all reject, the run fails
and results and metrics keep their previous values. -/
theorem runAnalysis_all_or_nothing_witness :
    (runAnalysis sampleGuidelines svcAlwaysFail [sampleScheme] 1234 sampleState).outcome = RunOutcome.serviceFailure ∧
    (runAnalysis sampleGuidelines svcAlwaysFail [sampleScheme] 1234 sampleState).state.results = sampleState.results ∧
    (runAnalysis sampleGuidelines svcAlwaysFail [sampleScheme] 1234 sampleState).state.metrics = sampleState.metrics :=
  runAnalysis_all_or_nothing sampleGuidelines svcAlwaysFail [sampleScheme] 1234 sampleState
    (by decide) (by decide) ⟨sampleScheme, by decide, by decide⟩

/-- A successful join returns exactly the success payloads of the batch in
batch order. -/
theorem collectAll_ok_eq {E A : Type} :
    ∀ (l : List (Except E A)) (r : List A), collectAll l = Except.ok r →
      l = r.map Except.ok := by
  intro l
  induction l with
  | nil =>
      intro r h
      simp [collectAll] at h
      subst h
      rfl
  | cons x xs ih =>
      intro r h
      cases x with
      | error e => simp [collectAll] at h
      | ok a =>
          revert h
          simp only [collectAll]
          cases hxs : collectAll xs with
          | error e =>
              intro h
              simp at h
          | ok rest =>
              intro h
              simp at h
              subst h
              simp [ih rest hxs]

/-- C2: for a valid profile with every call succeeding, runAnalysis
dispatches exactly one evaluator call per catalog scheme, stores exactly
as many results as schemes, and the per-scheme evaluator outcomes in
catalog order are exactly the stored results in stored order. -/
theorem runAnalysis_catalog_order (guidelines : String → Option String)
    (svc : String → SvcOutcome) (schemes : List Scheme) (durationMs : Nat)
    (s : AppState)
    (hname : isBlank s.profile.name = false)
    (hstate : isBlank s.profile.state = false)
    (hok : ∀ sch ∈ schemes,
      isOkResult (checkEligibility guidelines svc s.profile sch.id) = true) :
    (runAnalysis guidelines svc schemes durationMs s).callsIssued = schemes.length ∧
    (runAnalysis guidelines svc schemes durationMs s).outcome = RunOutcome.success ∧
    (runAnalysis guidelines svc schemes durationMs s).state.results.length = schemes.length ∧
    schemes.map (fun sch => checkEligibility guidelines svc s.profile sch.id) =
      (runAnalysis guidelines svc schemes durationMs s).state.results.map Except.ok := by
  have hall : ∀ x ∈ schemes.map (fun sch => checkEligibility guidelines svc s.profile sch.id),
      isOkResult x = true := by
    intro x hx
    obtain ⟨sch, hmem, rfl⟩ := List.mem_map.mp hx
    exact hok sch hmem
  obtain ⟨r, hr⟩ := collectAll_ok_of_all_ok _ hall
  have heq := collectAll_ok_eq _ _ hr
  have hres : (runAnalysis guidelines svc schemes durationMs s).state.results = r := by
    simp [runAnalysis, hname, hstate, hr]
  have hlen : r.length = schemes.length := by
    have hl := congrArg List.length heq
    simpa using hl.symm
  refine ⟨?_, ?_, ?_, ?_⟩
  · simp [runAnalysis, hname, hstate, hr]
  · simp [runAnalysis, hname, hstate, hr]
  · rw [hres, hlen]
  · rw [hres]
    exact heq

/-- Witness for C2: one catalog scheme, a service that always answers, one
stored result which is the evaluator output of that scheme. -/
theorem runAnalysis_catalog_order_witness :
    (runAnalysis sampleGuidelines svcAlwaysOk [sampleScheme] 1234 sampleState).callsIssued = 1 ∧
    (runAnalysis sampleGuidelines svcAlwaysOk [sampleScheme] 1234 sampleState).outcome = RunOutcome.success ∧
    (runAnalysis sampleGuidelines svcAlwaysOk [sampleScheme] 1234 sampleState).state.results.length = 1 ∧
    [sampleScheme].map (fun sch => checkEligibility sampleGuidelines svcAlwaysOk sampleState.profile sch.id) =
      (runAnalysis sampleGuidelines svcAlwaysOk [sampleScheme] 1234 sampleState).state.results.map Except.ok := by
  have h := runAnalysis_catalog_order sampleGuidelines svcAlwaysOk [sampleScheme] 1234 sampleState
    (by decide) (by decide) (by decide)
  exact h

/-- C3: on a successful run the metrics are updated by incrementing
checksPerformed by exactly one, overwriting avgResponseTime with the
measured duration formatted to one decimal place of seconds, overwriting
eligibleCount with the number of eligible entries of the new result set,
and leaving schemesAnalyzed unchanged. -/
theorem runAnalysis_metrics_update (guidelines : String → Option String)
    (svc : String → SvcOutcome) (schemes : List Scheme) (durationMs : Nat)
    (s : AppState)
    (hsucc : (runAnalysis guidelines svc schemes durationMs s).outcome = RunOutcome.success) :
    (runAnalysis guidelines svc schemes durationMs s).state.metrics.checksPerformed =
      s.metrics.checksPerformed + 1 ∧
    (runAnalysis guidelines svc schemes durationMs s).state.metrics.avgResponseTime =
      formatSeconds durationMs ++ "s" ∧
    (runAnalysis guidelines svc schemes durationMs s).state.metrics.eligibleCount =
      ((runAnalysis guidelines svc schemes durationMs s).state.results.filter
        (fun r => r.isEligible)).length ∧
    (runAnalysis guidelines svc schemes durationMs s).state.metrics.schemesAnalyzed =
      s.metrics.schemesAnalyzed := by
  cases hb : (isBlank s.profile.name || isBlank s.profile.state) with
  | true =>
      simp [runAnalysis, hb] at hsucc
  | false =>
      cases hc : collectAll (schemes.map (fun sch => checkEligibility guidelines svc s.profile sch.id)) with
      | error e =>
          simp [runAnalysis, hb, hc] at hsucc
      | ok r =>
          simp [runAnalysis, hb, hc]

/-- Witness for C3: a concrete successful run increments the counter,
rewrites the response time from the measured 1234 milliseconds, and counts
one eligible result. -/
theorem runAnalysis_metrics_update_witness :
    (runAnalysis sampleGuidelines svcAlwaysOk [sampleScheme] 1234 sampleState).state.metrics.checksPerformed =
      sampleState.metrics.checksPerformed + 1 ∧
    (runAnalysis sampleGuidelines svcAlwaysOk [sampleScheme] 1234 sampleState).state.metrics.avgResponseTime =
      formatSeconds 1234 ++ "s" ∧
    (runAnalysis sampleGuidelines svcAlwaysOk [sampleScheme] 1234 sampleState).state.metrics.eligibleCount =
      ((runAnalysis sampleGuidelines svcAlwaysOk [sampleScheme] 1234 sampleState).state.results.filter
        (fun r => r.isEligible)).length ∧
    (runAnalysis sampleGuidelines svcAlwaysOk [sampleScheme] 1234 sampleState).state.metrics.schemesAnalyzed =
      sampleState.metrics.schemesAnalyzed :=
  runAnalysis_metrics_update sampleGuidelines svcAlwaysOk [sampleScheme] 1234 sampleState (by decide)

/-- A key with a schema-conforming typed value is one of the six schema
keys. -/
theorem keyWellTyped_mem {k : String} {v : Json} (h : keyWellTyped k v = true) :
    k ∈ profileKeys := by
  unfold keyWellTyped at h
  by_cases h1 : k = "landHolding"
  · subst h1
    simp [profileKeys]
  · rw [if_neg (by simpa using h1)] at h
    by_cases h2 : k = "name" ∨ k = "state" ∨ k = "district" ∨ k = "cropType" ∨ k = "category"
    · rcases h2 with h2 | h2 | h2 | h2 | h2 <;> (subst h2; simp [profileKeys])
    · exfalso
      push_neg at h2
      obtain ⟨hn, hs, hd, hc, hcat⟩ := h2
      rw [if_neg (by simp [hn, hs, hd, hc, hcat])] at h
      exact Bool.false_ne_true h

/-- Every key of a schema-conforming response object is one of the six
schema keys. -/
theorem conforms_keys_subset {j : Json} (h : conformsToProfileSchema j = true) :
    ∀ k ∈ keysOf j, k ∈ profileKeys := by
  intro k hk
  cases j with
  | obj fields =>
      simp only [keysOf] at hk
      obtain ⟨kv, hkv, rfl⟩ := List.mem_map.mp hk
      have hall := List.all_eq_true.mp h kv hkv
      exact keyWellTyped_mem hall
  | str a => simp [keysOf] at hk
  | num a => simp [keysOf] at hk
  | jbool a => simp [keysOf] at hk
  | arr a => simp [keysOf] at hk
  | jnull => simp [keysOf] at hk

/-- C6 counterexample: extractProfileFromText can throw; when the remote
call itself rejects, the rejection propagates out of the adapter, so the
claim that it never throws for every transcript is false. -/
theorem extractProfile_throws_cex : ¬ c6Stated := by
  intro h
  obtain ⟨j, hj⟩ := h svcExtractFail "hello"
  simp [extractProfileFromText, svcExtractFail] at hj

/-- C6 amended: whenever the remote call yields a response,
extractProfileFromText does not throw, for every response: it returns the
empty object when the response text is unparseable and otherwise returns
the parsed object unchanged, and whenever the returned object conforms to
the requested schema its keys are among the six allowed profile keys with
the declared types. -/
theorem extractProfile_soft_fail (svc : String → ExtractOutcome) (text : String)
    (o : Option Json)
    (hsvc : svc (extractPrompt text) = ExtractOutcome.text o) :
    ∃ j, extractProfileFromText svc text = Except.ok j ∧
      (o = none → j = Json.obj []) ∧
      (∀ j0, o = some j0 → j = j0) ∧
      (conformsToProfileSchema j = true → ∀ k ∈ keysOf j, k ∈ profileKeys) := by
  cases o with
  | none =>
      refine ⟨Json.obj [], ?_, fun _ => rfl, ?_, ?_⟩
      · simp [extractProfileFromText, hsvc]
      · intro j0 h
        simp at h
      · intro hc
        exact conforms_keys_subset hc
  | some j0 =>
      refine ⟨j0, ?_, ?_, ?_, ?_⟩
      · simp [extractProfileFromText, hsvc]
      · intro h
        simp at h
      · intro j1 h
        exact Option.some.inj h
      · intro hc
        exact conforms_keys_subset hc

/-- Witness for the amended C6: a concrete response object is returned
unchanged without throwing, and since it conforms to the schema its keys
are among the six allowed keys. -/
theorem extractProfile_soft_fail_witness :
    ∃ j, extractProfileFromText svcExtractOk "I am a farmer from Punjab" = Except.ok j ∧
      (some sampleJson = none → j = Json.obj []) ∧
      (∀ j0, some sampleJson = some j0 → j = j0) ∧
      (conformsToProfileSchema j = true → ∀ k ∈ keysOf j, k ∈ profileKeys) :=
  extractProfile_soft_fail svcExtractOk "I am a farmer from Punjab" (some sampleJson) rfl

/-- C7: checkEligibility raises exactly when the remote call rejects or
its output is unparseable, the rejection message propagates unchanged to
the caller, and an unknown scheme id never makes the lookup raise:
evaluation proceeds with the placeholder guideline text. -/
theorem checkEligibility_error_iff (guidelines : String → Option String)
    (svc : String → SvcOutcome) (p : FarmerProfile) (schemeId : String) :
    (isOkResult (checkEligibility guidelines svc p schemeId) = false ↔
      svcFailed (svc (eligPrompt p (guidelineFor guidelines schemeId))) = true) ∧
    (∀ m, svc (eligPrompt p (guidelineFor guidelines schemeId)) = SvcOutcome.fail m →
      checkEligibility guidelines svc p schemeId = Except.error (EvalError.service m)) ∧
    (guidelines schemeId = none →
      checkEligibility guidelines svc p schemeId =
        evalWithGuidelines svc p schemeId "No guidelines found.") := by
  refine ⟨?_, ?_, ?_⟩
  · cases hs : svc (eligPrompt p (guidelineFor guidelines schemeId)) with
    | fail m => simp [checkEligibility, evalWithGuidelines, hs, isOkResult, svcFailed]
    | respond parsed =>
        cases parsed with
        | none => simp [checkEligibility, evalWithGuidelines, hs, isOkResult, svcFailed]
        | some d => simp [checkEligibility, evalWithGuidelines, hs, isOkResult, svcFailed]
  · intro m hm
    simp [checkEligibility, evalWithGuidelines, hm]
  · intro hg
    simp [checkEligibility, guidelineFor, hg]

/-- Witness for C7: with an unknown scheme id and a rejecting service, the
lookup does not raise, evaluation proceeds on the placeholder text, and
the adapter reports the failure. -/
theorem checkEligibility_error_iff_witness :
    isOkResult (checkEligibility sampleGuidelines svcAlwaysFail sampleProfile "unknown-scheme") = false ∧
    checkEligibility sampleGuidelines svcAlwaysFail sampleProfile "unknown-scheme" =
      evalWithGuidelines svcAlwaysFail sampleProfile "unknown-scheme" "No guidelines found." := by
  have h := checkEligibility_error_iff sampleGuidelines svcAlwaysFail sampleProfile "unknown-scheme"
  exact ⟨h.1.mpr (by decide), h.2.2 (by decide)⟩

/-- C10: on every successful evaluator call, the returned result carries
schemeId equal to the requested id and schemeName equal to the upper-cased
id, regardless of any same-named fields in the parsed service response,
whose six schema fields are copied through unchanged. -/
theorem checkEligibility_overrides_ids (guidelines : String → Option String)
    (svc : String → SvcOutcome) (p : FarmerProfile) (schemeId : String)
    (d : ParsedEligResponse)
    (h : svc (eligPrompt p (guidelineFor guidelines schemeId)) = SvcOutcome.respond (some d)) :
    checkEligibility guidelines svc p schemeId = Except.ok
      { schemeId := schemeId
        schemeName := jsToUpperCase schemeId
        isEligible := d.isEligible
        benefit := d.benefit
        proofCitation := d.proofCitation
        proofSnippet := d.proofSnippet
        nextSteps := d.nextSteps
        requiredDocuments := d.requiredDocuments } := by
  simp [checkEligibility, evalWithGuidelines, h]

/-- Witness for C10: the sample response carries its own schemeName, the
display name of the program, yet the returned result names the scheme by
its upper-cased id. -/
theorem checkEligibility_overrides_ids_witness :
    checkEligibility sampleGuidelines svcAlwaysOk sampleProfile "pm-kisan" = Except.ok
      { schemeId := "pm-kisan"
        schemeName := "PM-KISAN"
        isEligible := true
        benefit := "Rs 6000 per year"
        proofCitation := "Page 2"
        proofSnippet := "All landholding farmer families"
        nextSteps := ["Apply online"]
        requiredDocuments := ["Aadhaar"] } := by
  have h := checkEligibility_overrides_ids sampleGuidelines svcAlwaysOk sampleProfile
    "pm-kisan" sampleResponse rfl
  simpa [sampleResponse] using h

/-- C8 counterexample: the claim that stopping from Listening never lets a
transcript of that session be emitted is false: stopListening issues a
platform stop, not an abort, so the platform may still deliver the final
result of the audio captured so far, and the registered onresult handler
processes it; a one-event continuation exhibits this. -/
theorem stopListening_emits_transcript_cex : ¬ c8Stated := by
  intro h
  have hx := h listeningState [VCEvent.result "I am a farmer from Punjab"]
    rfl rfl rfl (by decide)
  simp [listeningState, runTrace, vcStep, onResult, stopListening, stopSession] at hx

/-- C8 amended: stopListening invoked while Listening immediately returns
the machine to Idle and asks the platform to stop the session, which
enters the stopping phase, and stopListening itself emits no transcript;
a final result from the stopping session may still be processed later. -/
theorem stopListening_returns_idle (s : VCState)
    (_hL : s.isListening = true) (hR : s.hasRecognition = true)
    (hA : s.session = SessionSt.active) :
    (stopListening s).isListening = false ∧
    (stopListening s).session = SessionSt.stopping ∧
    (stopListening s).emitted = s.emitted := by
  simp [stopListening, hR, hA, stopSession]

/-- Witness for the amended C8 at the concrete listening state. -/
theorem stopListening_returns_idle_witness :
    (stopListening listeningState).isListening = false ∧
    (stopListening listeningState).session = SessionSt.stopping ∧
    (stopListening listeningState).emitted = listeningState.emitted :=
  stopListening_returns_idle listeningState rfl rfl rfl

/-- C9: startListening invoked while already Listening never starts a
second concurrent recognition session, for every microphone outcome: the
platform start raises into the catch handler, the session count is
unchanged, the single session stays the active one and an error is
surfaced; and stopListening invoked while Idle leaves the state
unchanged. -/
theorem speech_capture_no_reentrancy (s : VCState) (mic : MicOutcome) :
    (s.isListening = true → s.session = SessionSt.active →
      (startListening mic s).startedCount = s.startedCount ∧
      (startListening mic s).session = SessionSt.active ∧
      (startListening mic s).errMsg ≠ none) ∧
    (s.isListening = false → s.session = SessionSt.inactive → stopListening s = s) := by
  constructor
  · intro hL hA
    cases hr : s.hasRecognition with
    | false => simp [startListening, hr, hA]
    | true =>
        cases mic with
        | granted => simp [startListening, hr, hA]
        | notAllowed => simp [startListening, hr, hA]
        | notFound => simp [startListening, hr, hA]
        | otherFailure => simp [startListening, hr, hA]
  · intro hL hI
    cases hr : s.hasRecognition with
    | false => simp [stopListening, hr]
    | true =>
        cases s
        simp_all [stopListening, stopSession]

/-- Witness for C9: a re-entrant start on the concrete listening state
does not start a second session, and a stop on the concrete idle state is
the identity. -/
theorem speech_capture_no_reentrancy_witness :
    (startListening MicOutcome.granted listeningState).startedCount = listeningState.startedCount ∧
    stopListening idleState = idleState := by
  have h1 := speech_capture_no_reentrancy listeningState MicOutcome.granted
  have h2 := speech_capture_no_reentrancy idleState MicOutcome.granted
  exact ⟨(h1.1 rfl rfl).1, h2.2 rfl rfl⟩
